import Mathlib

/-!
Verification of the agent-os-v3 checkpoint/recovery/gating engine.

Shallow embedding of the core modules (src/checkpoints.py, src/retry.py,
src/checkpoint_verifier.py, src/imr_pentagon.py, src/uncertainty.py,
src/rollback.py, src/orchestrator.py, src/roles/verifier.py,
src/roles/compliance.py).  The relational database is modelled as in-memory
lists of rows; external effects (filesystem, git, the Groq classifier, the
audit table write) are modelled as pure oracle parameters; machine hashing
(SHA-256 over canonical JSON) is modelled by a total function whose only
property used anywhere is that it returns a (non-null) string.
-/

namespace AgentOS

/-- Python truthiness of an optional string: None and the empty string are falsy. -/
def truthyStr : Option String → Bool
  | none => false
  | some s => s ≠ ""

/-- A flat string-to-string map, modelling a JSON object whose values are opaque. -/
abbrev StrMap := List (String × String)

/-- Python truthiness of an optional dict: None and the empty dict are falsy. -/
def truthyMap : Option StrMap → Bool
  | none => false
  | some m => m ≠ []

/-- Lookup in a string map (first binding wins, as for a Python dict built once). -/
def mapGet (m : StrMap) (k : String) : Option String :=
  (m.find? (fun p => p.1 == k)).map (·.2)

/-- Ordered insert for the sorts below (keeps kernel evaluation structural). -/
def insertLe {α : Type _} (le : α → α → Bool) (a : α) : List α → List α
  | [] => [a]
  | b :: rest => if le a b then a :: b :: rest else b :: insertLe le a rest

/-- Insertion sort, modelling SQL ORDER BY and json sort_keys. -/
def insertionSort {α : Type _} (le : α → α → Bool) : List α → List α
  | [] => []
  | a :: rest => insertLe le a (insertionSort le rest)

/-- Model of json.dumps(data, sort_keys=True) over a flat map: canonical
    serialization, keys in sorted order. -/
def serializeMap (m : StrMap) : String :=
  (insertionSort (fun a b => a.1 ≤ b.1) m).foldl
    (fun acc p => acc ++ p.1 ++ "=" ++ p.2 ++ ";") ""

/-- Model of compute_hash (src/checkpoints.py): SHA-256 over the canonical
    serialization.  The digest itself is opaque to every claim; all that is
    ever used is that the result is a string (hence non-null). -/
def compute_hash (m : StrMap) : String :=
  "sha256:" ++ serializeMap m

/-! Section: Checkpoint ledger (src/checkpoints.py) -/

/-- rollback_data payload: a kind-tagged dict.  `fields` holds the scalar
    entries (including the "type" tag consulted by the rollback engine);
    `operations` the recorded per-operation undo data. -/
structure RollbackData where
  fields : StrMap
  operations : List StrMap
deriving Repr, DecidableEq

/-- rollback_data.get("type", "unknown") as read by execute_rollback. -/
def RollbackData.rtype (rd : RollbackData) : String :=
  (mapGet rd.fields "type").getD "unknown"

/-- One row of the checkpoints table (the columns these claims touch). -/
structure Checkpoint where
  id : Nat
  global_sequence : Nat
  project_id : String
  task_id : Option String
  phase : Option String
  step_name : String
  state_snapshot : Option StrMap
  inputs_hash : Option String
  outputs_hash : Option String
  status : String
  previous_checkpoint_id : Option Nat
  rollback_data : Option RollbackData
  error_details : Option StrMap
deriving Repr, DecidableEq

/-- The checkpoints table. -/
abbrev Ledger := List Checkpoint

/-- get_checkpoint: SELECT * FROM checkpoints WHERE id = %s. -/
def findCheckpoint (ledger : Ledger) (cid : Nat) : Option Checkpoint :=
  ledger.find? (fun c => c.id == cid)

/-- CheckpointManager.get_next_sequence:
    SELECT COALESCE(MAX(global_sequence), 0) + 1 FROM checkpoints.
    A read in its own statement, separate from the later insert. -/
def get_next_sequence (ledger : Ledger) : Nat :=
  (ledger.map (·.global_sequence)).foldl max 0 + 1

/-- Fresh primary key for an insert (a serial column: one more than the
    current maximum id). -/
def nextRowId (ledger : Ledger) : Nat :=
  (ledger.map (·.id)).foldl max 0 + 1

/-- CheckpointManager.create_checkpoint.  Computes the global sequence via
    get_next_sequence, defaults inputs_hash to the hash of the snapshot when
    the caller supplied none, stores rollback_data only when truthy, and
    inserts the row with status "created".  Returns the inserted row and the
    new table. -/
def create_checkpoint (ledger : Ledger) (project_id : String) (phase : Option String)
    (step_name : String) (state_snapshot : StrMap) (task_id : Option String)
    (inputs_hash : Option String) (outputs_hash : Option String)
    (previous_checkpoint_id : Option Nat) (rollback_data : Option RollbackData) :
    Checkpoint × Ledger :=
  let seq := get_next_sequence ledger
  let ih := match inputs_hash with
    | none => some (compute_hash state_snapshot)
    | some h => some h
  let row : Checkpoint := {
    id := nextRowId ledger
    global_sequence := seq
    project_id := project_id
    task_id := task_id
    phase := phase
    step_name := step_name
    state_snapshot := some state_snapshot
    inputs_hash := ih
    outputs_hash := outputs_hash
    status := "created"
    previous_checkpoint_id := previous_checkpoint_id
    rollback_data := if rollback_data.isSome then rollback_data else none
    error_details := none }
  (row, ledger ++ [row])

/-- CheckpointManager.complete_checkpoint.  Sets status to "complete";
    sets outputs_hash from the outputs_hash argument when truthy, else from
    the hash of outputs when truthy, else leaves it untouched; stores
    rollback_data when supplied.  Returns whether a row was updated and the
    new table. -/
def complete_checkpoint (ledger : Ledger) (checkpoint_id : Nat)
    (outputs_hash : Option String) (outputs : Option StrMap)
    (rollback_data : Option RollbackData) : Bool × Ledger :=
  let upd : Checkpoint → Checkpoint := fun c =>
    { c with
      status := "complete"
      outputs_hash :=
        if truthyStr outputs_hash then outputs_hash
        else if truthyMap outputs then some (compute_hash (outputs.getD []))
        else c.outputs_hash
      rollback_data := if rollback_data.isSome then rollback_data else c.rollback_data }
  let hit := (ledger.find? (fun c => c.id == checkpoint_id)).isSome
  (hit, ledger.map (fun c => if c.id == checkpoint_id then upd c else c))

/-- CheckpointManager.fail_checkpoint: status := "failed", error_details stored. -/
def fail_checkpoint (ledger : Ledger) (checkpoint_id : Nat)
    (error_details : StrMap) : Bool × Ledger :=
  let hit := (ledger.find? (fun c => c.id == checkpoint_id)).isSome
  (hit, ledger.map (fun c =>
    if c.id == checkpoint_id then
      { c with status := "failed", error_details := some error_details }
    else c))

/-! Section: Retry manager (src/retry.py) -/

/-- One retry_history entry. -/
structure RetryEntry where
  attempt : Nat
  timestamp : Nat
  reason : Option String
deriving Repr, DecidableEq

/-- One row of the tasks table (the columns these claims touch).  Times are
    modelled as natural-number seconds. -/
structure Task where
  id : String
  project_id : String
  status : String
  current_phase : Option String
  retry_count : Nat
  retry_history : List RetryEntry
  next_retry_at : Option Nat
deriving Repr, DecidableEq

abbrev Tasks := List Task

def findTask (tasks : Tasks) (tid : String) : Option Task :=
  tasks.find? (fun t => t.id == tid)

/-- UPDATE tasks SET ... WHERE id = %s, returning the rowcount. -/
def updateTask (tasks : Tasks) (tid : String) (f : Task → Task) : Nat × Tasks :=
  ((tasks.filter (fun t => t.id == tid)).length,
   tasks.map (fun t => if t.id == tid then f t else t))

/-- RetryManager configuration (defaults 3 / 30s / 300s). -/
structure RetryManager where
  max_retries : Nat := 3
  base_delay : Nat := 30
  max_delay : Nat := 300
deriving Repr

/-- RetryManager.get_retry_delay: 0 for a non-positive count, otherwise
    min(max_delay, base_delay * 2^(retry_count - 1)). -/
def get_retry_delay (m : RetryManager) (retry_count : Nat) : Nat :=
  if retry_count = 0 then 0
  else min m.max_delay (m.base_delay * 2 ^ (retry_count - 1))

/-- RetryManager.should_retry: retry_count < max_retries for an existing task. -/
def should_retry (m : RetryManager) (tasks : Tasks) (tid : String) : Bool :=
  match findTask tasks tid with
  | none => false
  | some t => t.retry_count < m.max_retries

/-- RetryManager.record_retry.  At or past the cap: mark permanently_failed and
    return false.  Otherwise increment the count, append a history entry,
    schedule next_retry_at = now + delay, and set the status to "queued" unless
    the incremented count has reached the cap, in which case the status becomes
    "permanently_failed".  Returns whether a retry row was written and the new
    table. -/
def record_retry (m : RetryManager) (tasks : Tasks) (tid : String)
    (error_reason : Option String) (now : Nat) : Bool × Tasks :=
  match findTask tasks tid with
  | none => (false, tasks)
  | some t =>
    if m.max_retries ≤ t.retry_count then
      (false, (updateTask tasks tid (fun u => { u with status := "permanently_failed" })).2)
    else
      let newCount := t.retry_count + 1
      let entry : RetryEntry := { attempt := newCount, timestamp := now, reason := error_reason }
      let delay := get_retry_delay m newCount
      let status := if m.max_retries ≤ newCount then "permanently_failed" else "queued"
      let (rows, tasks2) := updateTask tasks tid (fun u =>
        { u with
          retry_count := newCount
          retry_history := u.retry_history ++ [entry]
          status := status
          next_retry_at := some (now + delay) })
      (rows > 0, tasks2)

/-! Section: Chain verifier (src/checkpoint_verifier.py) -/

/-- The fixed transition table VALID_PHASE_TRANSITIONS.  Note there is no
    "compliance" entry anywhere in the table; verification may step directly
    to execution (or back to drafting), and drafting may repeat. -/
def VALID_PHASE_TRANSITIONS : Option String → Option (List String)
  | none => some ["preparation", "drafting"]
  | some "preparation" => some ["drafting"]
  | some "drafting" => some ["verification", "drafting"]
  | some "verification" => some ["execution", "drafting"]
  | some "execution" => some ["confirmation", "verification"]
  | some "confirmation" => some []
  | some _ => none

/-- VALID_PHASE_TRANSITIONS.get(prev_phase, []). -/
def validNext (p : Option String) : List String :=
  (VALID_PHASE_TRANSITIONS p).getD []

/-- One row as selected by verify_task_chain: id, sequence, phase, step,
    status, plus the three IS NOT NULL projections. -/
structure ChainRow where
  id : Nat
  global_sequence : Nat
  phase : Option String
  step_name : String
  status : String
  has_state : Bool
  has_inputs : Bool
  has_outputs : Bool
deriving Repr, DecidableEq

/-- An entry of the issues list: checkpoint id (None for the empty-chain
    issue) and the joined issue text. -/
structure ChainIssue where
  checkpoint_id : Option Nat
  issue : String
deriving Repr, DecidableEq

/-- The dict verify_task_chain returns. -/
structure ChainReport where
  total_checkpoints : Nat
  valid_checkpoints : Nat
  issues : List ChainIssue
  is_valid : Bool
deriving Repr, DecidableEq

/-- The per-row issue texts of the loop body of verify_task_chain.  A
    transition issue is raised only when a previous (truthy) phase exists, the
    current phase is truthy, the two differ, and the current phase is not in
    the table row of the previous one; a same-phase pair is never checked. -/
def chainRowIssues (prev_phase : Option String) (cp : ChainRow) : List String :=
  (match prev_phase, cp.phase with
   | some pp, some cur =>
     if cur ≠ "" ∧ cur ≠ pp ∧ cur ∉ validNext (some pp) then
       ["Invalid phase transition: " ++ pp ++ " -> " ++ cur]
     else []
   | _, _ => [])
  ++ (if cp.has_state then [] else ["Missing state_snapshot"])
  ++ (if cp.has_inputs then [] else ["Missing inputs_hash"])
  ++ (if cp.status == "complete" ∧ ¬ cp.has_outputs then
        ["Completed checkpoint missing outputs_hash"] else [])

/-- prev_phase is replaced only by a truthy current phase. -/
def nextPrevPhase (prev_phase : Option String) (cp : ChainRow) : Option String :=
  match cp.phase with
  | some cur => if cur ≠ "" then some cur else prev_phase
  | none => prev_phase

/-- The loop of verify_task_chain, threading (prev_phase, issues, valid_count). -/
def chainLoop : Option String → List ChainIssue → Nat → List ChainRow →
    List ChainIssue × Nat
  | _, issues, cnt, [] => (issues, cnt)
  | prev, issues, cnt, cp :: rest =>
    let cpIssues := chainRowIssues prev cp
    let issues2 := if cpIssues ≠ [] then
        issues ++ [{ checkpoint_id := some cp.id,
                     issue := String.intercalate "; " cpIssues }]
      else issues
    let cnt2 := if cpIssues ≠ [] then cnt else cnt + 1
    chainLoop (nextPrevPhase prev cp) issues2 cnt2 rest

/-- CheckpointVerifier.verify_task_chain over the rows of one task.  The SQL
    orders by global_sequence; the model sorts the given rows accordingly. -/
def verify_task_chain (rows : List ChainRow) : ChainReport :=
  let sorted := insertionSort (fun a b => a.global_sequence ≤ b.global_sequence) rows
  if sorted = [] then
    { total_checkpoints := 0, valid_checkpoints := 0
      issues := [{ checkpoint_id := none, issue := "No checkpoints found for task" }]
      is_valid := false }
  else
    let (issues, cnt) := chainLoop none [] 0 sorted
    { total_checkpoints := sorted.length, valid_checkpoints := cnt
      issues := issues, is_valid := issues = [] }

/-- The transition table as the SPEC states it (claim C4): the chain
    preparation → drafting → verification → compliance → execution →
    confirmation plus the back-edges verification → drafting and
    execution → verification.  Written from the claim text, to be compared
    against the table the code implements. -/
def specAllowedTransitions : List (String × String) :=
  [("preparation", "drafting"), ("drafting", "verification"),
   ("verification", "compliance"), ("compliance", "execution"),
   ("execution", "confirmation"),
   ("verification", "drafting"), ("execution", "verification")]

/-! Section: IMR Pentagon validator (src/imr_pentagon.py) -/

inductive VStatus
  | pass
  | fail
  | warning
deriving Repr, DecidableEq

/-- ValidationResult (the informational details payload is not modelled; no
    claim consults it). -/
structure VResult where
  status : VStatus
  message : String
deriving Repr, DecidableEq

structure PentagonResult where
  valid : Bool
  inputs : VResult
  method : VResult
  rules : VResult
  review : VResult
  record : VResult
deriving Repr, DecidableEq

/-- The static REQUIRED_INPUTS table: action type → required field names. -/
def REQUIRED_INPUTS : String → Option (List String)
  | "git_push" => some ["repository", "branch", "commit_message", "files_changed"]
  | "create_pr" => some ["repository", "source_branch", "target_branch", "title", "description"]
  | "send_notification" => some ["recipient", "message", "channel"]
  | "delete_file" => some ["file_path", "backup_location"]
  | "external_api_call" => some ["endpoint", "method", "payload"]
  | "database_write" => some ["table", "operation", "data"]
  | _ => none

/-- IMRPentagon.validate_inputs: an unknown action type yields a WARNING (not
    a pass); for a known type, every required field must be present and
    truthy, else FAIL. -/
def validate_inputs (step_name : String) (inputs : StrMap) : VResult :=
  match REQUIRED_INPUTS step_name with
  | none =>
    { status := .warning
      message := "Step " ++ step_name ++ " not in known irreversible actions" }
  | some required =>
    let missing := required.filter (fun f => (mapGet inputs f).isNone)
    let invalid := required.filter (fun f =>
      match mapGet inputs f with
      | some v => v = ""
      | none => false)
    if missing ≠ [] ∨ invalid ≠ [] then
      { status := .fail, message := "Input validation failed for " ++ step_name }
    else
      { status := .pass, message := "All required inputs present for " ++ step_name }

/-- The context dict validate_all / check_rules consult. -/
structure PContext where
  task_id : Option String
  inputs : StrMap
  uncommitted_changes : Option (List String)
  source_branch : Option String
  target_branch : Option String
  approval_record : Option StrMap
deriving Repr

/-- Approval record fields as read by verify_review.  completed_at is a
    parsed timestamp in seconds (the string-parse-failure branch of the source
    collapses into the missing-timestamp case: both FAIL).
    verifier_confidence defaults to 0 when absent, as .get(key, 0) does. -/
structure Approval where
  decision : Option String
  completed_at : Option Nat
  verifier_confidence : ℚ
deriving Repr

/-- IMRPentagon.check_rules: a task_id must be present, the task must exist
    with status "executing", and step-specific preconditions must hold
    (no uncommitted changes before git_push; source ≠ target before create_pr). -/
def check_rules (tasks : Tasks) (step_name : String) (ctx : PContext) : VResult :=
  if ¬ truthyStr ctx.task_id then
    { status := .fail, message := "No task_id in context - cannot validate rules" }
  else
    match findTask tasks (ctx.task_id.getD "") with
    | none => { status := .fail, message := "Task not found" }
    | some t =>
      if t.status ≠ "executing" then
        { status := .fail, message := "Task status is not executing" }
      else if step_name = "git_push" ∧ (ctx.uncommitted_changes.getD []) ≠ [] then
        { status := .fail, message := "Cannot push with uncommitted changes" }
      else if step_name = "create_pr" ∧
          ctx.source_branch = some (ctx.target_branch.getD "main") then
        { status := .fail, message := "Source branch cannot be same as target" }
      else
        { status := .pass, message := "All rules satisfied for " ++ step_name }

/-- IMRPentagon.MAX_APPROVAL_AGE_HOURS. -/
def MAX_APPROVAL_AGE_HOURS : ℚ := 24

/-- IMRPentagon.verify_review at model time `now` (seconds): approval must
    exist, be an "approved" decision, carry a timestamp, be at most 24 hours
    old, and record confidence at least 0.90. -/
def verify_review (now : Nat) (approval : Option Approval) : VResult :=
  match approval with
  | none => { status := .fail, message := "No approval record found" }
  | some a =>
    if a.decision ≠ some "approved" then
      { status := .fail, message := "Approval decision was not approved" }
    else match a.completed_at with
    | none => { status := .fail, message := "Approval record missing completion timestamp" }
    | some t =>
      let age_hours : ℚ := ((now : ℚ) - (t : ℚ)) / 3600
      if age_hours > MAX_APPROVAL_AGE_HOURS then
        { status := .fail, message := "Approval too old" }
      else if a.verifier_confidence < mkRat 9 10 then
        { status := .fail, message := "Verifier confidence below required 0.90" }
      else
        { status := .pass, message := "Valid approval found" }

/-- The audit-table insert of create_record, as an oracle: ok with the new
    audit id, or error when the write raises. -/
structure PentagonEnv where
  auditInsert : Except String Nat

/-- IMRPentagon.validate_all.  Method always passes.  The Record step runs
    only when Inputs, Method, Rules and Review are all pass; a failed audit
    write is itself a FAIL; when skipped the record result is a FAIL.  The
    second component instruments whether the audit write was attempted. -/
def validate_all (env : PentagonEnv) (tasks : Tasks) (now : Nat)
    (step_name : String) (ctx : PContext) (approval : Option Approval) :
    PentagonResult × Bool :=
  let inputs_result := validate_inputs step_name ctx.inputs
  let method_result : VResult :=
    { status := .pass, message := "Execution method defined for " ++ step_name }
  let rules_result := check_rules tasks step_name ctx
  let review_result := verify_review now approval
  let fourPass := inputs_result.status = .pass ∧ method_result.status = .pass ∧
    rules_result.status = .pass ∧ review_result.status = .pass
  let (record_result, attempted) :=
    if fourPass then
      (match env.auditInsert with
       | .ok _ => ({ status := .pass, message := "Audit record created" }, true)
       | .error e => ({ status := .fail, message := "Failed to create audit record: " ++ e }, true))
    else
      ({ status := .fail, message := "Cannot create record - other validations failed" }, false)
  let valid := inputs_result.status = .pass ∧ method_result.status = .pass ∧
    rules_result.status = .pass ∧ review_result.status = .pass ∧
    record_result.status = .pass
  ({ valid := valid
     inputs := inputs_result
     method := method_result
     rules := rules_result
     review := review_result
     record := record_result }, attempted)

/-! Section: Uncertainty detector (src/uncertainty.py) -/

inductive USeverity
  | halt
  | warn
deriving Repr, DecidableEq

/-- One UncertaintySignal (category is always CONFIDENCE for the signals the
    language/score passes emit; the timestamp is not modelled). -/
structure USignal where
  signal_type : String
  category : String
  severity : USeverity
  description : String
  source : String
deriving Repr, DecidableEq

/-- The UNCERTAINTY_PATTERNS list: literal phrases (each regex is a literal
    framed by word boundaries) and their pattern types. -/
def UNCERTAINTY_PATTERNS : List (String × String) :=
  [("I\x27m not sure", "explicit_uncertainty"),
   ("I think", "hedging"),
   ("probably", "hedging"),
   ("might", "hedging"),
   ("possibly", "hedging"),
   ("I assume", "assumption"),
   ("I believe", "belief"),
   ("should work", "uncertainty"),
   ("not certain", "explicit_uncertainty"),
   ("unsure", "explicit_uncertainty"),
   ("maybe", "hedging"),
   ("perhaps", "hedging"),
   ("it seems", "hedging"),
   ("I would guess", "guessing"),
   ("if I understand correctly", "clarification_needed")]

/-- Word character for the \x5cb boundary: letter, digit or underscore. -/
def isWordChar (c : Char) : Bool :=
  c.isAlphanum || c = '_'

/-- Case-insensitive literal prefix match, returning the remainder on success. -/
def matchHere : List Char → List Char → Option (List Char)
  | [], t => some t
  | _ :: _, [] => none
  | p :: ps, c :: cs => if p.toLower = c.toLower then matchHere ps cs else none

/-- Scan for a word-bounded, case-insensitive occurrence of the literal
    pattern: the previous character (if any) is not a word character, and the
    character following the match (if any) is not a word character.  This is
    re.findall of a literal framed by word boundaries, reduced to a hit test
    (the source only consults whether matches is nonempty). -/
def searchFrom (p : List Char) (prevIsWord : Bool) : List Char → Bool
  | [] => false
  | c :: rest =>
    (!prevIsWord &&
      (match matchHere p (c :: rest) with
       | some [] => true
       | some (d :: _) => !isWordChar d
       | none => false))
    || searchFrom p (isWordChar c) rest

/-- re.findall(pattern, text, re.IGNORECASE) has a hit. -/
def patternHit (pat : String) (text : String) : Bool :=
  searchFrom pat.toList false text.toList

/-- The signals Pass 1 of check_uncertainty_language emits, in pattern-list
    order.  Types explicit_uncertainty / guessing / clarification_needed halt;
    the rest warn.  The description carries the pattern (the source embeds the
    first matched text, which for a literal pattern is the phrase itself up to
    letter case). -/
def regexPassSignals (text : String) (source : String) : List USignal :=
  UNCERTAINTY_PATTERNS.filterMap (fun pt =>
    if patternHit pt.1 text then
      let haltTypes := ["explicit_uncertainty", "guessing", "clarification_needed"]
      some { signal_type := "uncertainty_language_" ++ pt.2
             category := "confidence"
             severity := if pt.2 ∈ haltTypes then .halt else .warn
             description := "Uncertainty language detected: " ++ pt.1
             source := source }
    else none)

/-- The external Groq classifier verdict, as a pure oracle of the text:
    none models an unavailable integration or a raised exception (both of
    which the source swallows); some r carries the fields the detector reads. -/
structure GroqVerdict where
  success : Bool
  has_uncertainty : Bool
  should_halt : Bool
  sigs : List (String × String)
deriving Repr, DecidableEq

abbrev GroqOracle := String → Option GroqVerdict

/-- Detector state: configuration plus the accumulated signal list (signals
    are only ever appended by the check_* methods). -/
structure Detector where
  confidence_threshold : ℚ
  use_groq : Bool
  signals : List USignal
deriving Repr, DecidableEq

/-- UncertaintyDetector.has_halt_signals. -/
def has_halt_signals (d : Detector) : Bool :=
  d.signals.any (fun s => s.severity = .halt)

/-- UncertaintyDetector.check_confidence_score: a score below the threshold
    appends (and returns) a halt signal; otherwise nothing. -/
def check_confidence_score (d : Detector) (score : ℚ) (source : String) :
    Option USignal × Detector :=
  if score < d.confidence_threshold then
    let s : USignal := { signal_type := "low_confidence"
                         category := "confidence"
                         severity := .halt
                         description := "Confidence score below threshold"
                         source := source }
    (some s, { d with signals := d.signals ++ [s] })
  else (none, d)

/-- The signals Pass 2 emits from a Groq verdict. -/
def groqPassSignals (v : GroqVerdict) (source : String) : List USignal :=
  if v.success ∧ v.has_uncertainty then
    v.sigs.map (fun sg =>
      { signal_type := "groq_" ++ sg.1
        category := "confidence"
        severity := if v.should_halt then .halt else .warn
        description := sg.2
        source := source ++ " (groq-analyzed)" })
  else []

/-- UncertaintyDetector.check_uncertainty_language: Pass 1 regex scan; Pass 2
    (Groq) only when deep analysis is on, Groq is enabled, and Pass 1 found
    nothing.  Found signals are returned and appended to the detector state. -/
def check_uncertainty_language (groq : GroqOracle) (d : Detector) (text : String)
    (source : String) (deep_analysis : Bool) : List USignal × Detector :=
  let found1 := regexPassSignals text source
  let found :=
    if deep_analysis ∧ d.use_groq ∧ found1 = [] then
      match groq text with
      | some v => found1 ++ groqPassSignals v source
      | none => found1
    else found1
  (found, { d with signals := d.signals ++ found })

/-- One detection pass over a role output: the language scan followed by the
    confidence check, as the Orchestrator-facing gate runs them. -/
def detectionPass (groq : GroqOracle) (d : Detector) (text : String)
    (score : ℚ) (source : String) (deep_analysis : Bool) :
    (List USignal × Option USignal) × Detector :=
  let (found, d1) := check_uncertainty_language groq d text source deep_analysis
  let (cs, d2) := check_confidence_score d1 score source
  ((found, cs), d2)

/-! Section: Rollback engine (src/rollback.py) -/

/-- RollbackStatus (part models the PARTIAL member, unreachable in these
    claims). -/
inductive RollbackStatus
  | success
  | failed
  | part
  | blocked
deriving Repr, DecidableEq

/-- RollbackResult (error_details reduced to its reason tag; the
    verification_results list carries (checkpoint_id, verified)). -/
structure RollbackResult where
  status : RollbackStatus
  rolled_back_to : Option Nat
  steps_executed : Nat
  steps_failed : Nat
  reason : Option String
  verification_results : List (Nat × Bool)
deriving Repr, DecidableEq

/-- The effectful surface of the rollback engine, as pure oracles:
    fileUndo / dbUndo / gitUndo are the try bodies of the three handlers
    (error = a raised exception, caught by the handler into success=False);
    statusWrite is the checkpoints-table UPDATE, whose error models a raised
    database exception; verifyCheck is the try body of verify_state_matches
    (filesystem inspection; exceptions there are caught into False). -/
structure RbWorld where
  fileUndo : RollbackData → Except String Unit
  dbUndo : RollbackData → Except String Unit
  gitUndo : RollbackData → Except String Unit
  statusWrite : Nat → String → Except String Unit
  verifyCheck : Nat → Bool

/-- Result dict of execute_rollback. -/
structure UndoResult where
  success : Bool
  error : String
deriving Repr, DecidableEq

/-- Handler dispatch on rollback_data["type"]; each handler catches its own
    exceptions and reports success=False. -/
def dispatchUndo (w : RbWorld) (rd : RollbackData) : UndoResult :=
  let run : Except String Unit → UndoResult := fun r =>
    match r with
    | .ok _ => { success := true, error := "" }
    | .error e => { success := false, error := e }
  match rd.rtype with
  | "file_operations" => run (w.fileUndo rd)
  | "database_operations" => run (w.dbUndo rd)
  | "git_operations" => run (w.gitUndo rd)
  | other => { success := false, error := "Unknown rollback type: " ++ other }

/-- RollbackManager.execute_rollback.  Marks the checkpoint rolling_back,
    dispatches, then marks rolled_back or rollback_failed.  Every exception
    inside the try is caught into a rollback_failed status write and a
    success=False result; only an exception raised by that very recovery
    write escapes (the .error case). -/
def execute_rollback (w : RbWorld) (cp : Checkpoint) : Except String UndoResult :=
  match cp.rollback_data with
  | none => .ok { success := false, error := "No rollback data available" }
  | some rd =>
    match w.statusWrite cp.id "rolling_back" with
    | .error e =>
      (match w.statusWrite cp.id "rollback_failed" with
       | .error e2 => .error e2
       | .ok _ => .ok { success := false, error := e })
    | .ok _ =>
      if rd.rtype ≠ "file_operations" ∧ rd.rtype ≠ "database_operations" ∧
          rd.rtype ≠ "git_operations" then
        .ok { success := false, error := "Unknown rollback type: " ++ rd.rtype }
      else
        let r := dispatchUndo w rd
        if r.success then
          match w.statusWrite cp.id "rolled_back" with
          | .error e =>
            (match w.statusWrite cp.id "rollback_failed" with
             | .error e2 => .error e2
             | .ok _ => .ok { success := false, error := e })
          | .ok _ => .ok r
        else
          match w.statusWrite cp.id "rollback_failed" with
          | .error e =>
            (match w.statusWrite cp.id "rollback_failed" with
             | .error e2 => .error e2
             | .ok _ => .ok { success := false, error := e })
          | .ok _ => .ok r

/-- RollbackManager.verify_state_matches: a missing checkpoint is False;
    otherwise the filesystem inspection of the snapshot (the oracle). -/
def verify_state_matches (w : RbWorld) (ledger : Ledger) (cid : Nat) : Bool :=
  match findCheckpoint ledger cid with
  | none => false
  | some _ => w.verifyCheck cid

/-- SQL row filter of get_checkpoint_chain: later sequence, same project,
    task_id equal to the target task (a NULL target task matches only NULL
    rows, per SQL three-valued equality) or NULL, status complete. -/
def inChain (tgt : Checkpoint) (cp : Checkpoint) : Bool :=
  tgt.global_sequence < cp.global_sequence &&
  cp.project_id == tgt.project_id &&
  (match tgt.task_id, cp.task_id with
   | some t, some u => t == u
   | _, none => true
   | none, some _ => false) &&
  cp.status == "complete"

/-- RollbackManager.get_checkpoint_chain: the completed checkpoints after the
    target in the same project/task, ascending by global sequence; a missing
    target raises (ValueError). -/
def get_checkpoint_chain (ledger : Ledger) (target_id : Nat) :
    Except String (List Checkpoint) :=
  match findCheckpoint ledger target_id with
  | none => .error "Target checkpoint not found"
  | some tgt =>
    .ok (insertionSort (fun a b => a.global_sequence ≤ b.global_sequence)
      (ledger.filter (inChain tgt)))

/-- The for-loop of rollback_to_checkpoint over the descending walk order.
    Threads steps_executed, the verification results, and (as ghost
    instrumentation, second component of the result) the list of checkpoint
    ids on which an undo was attempted. -/
def rollbackWalk (w : RbWorld) (ledger : Ledger) (target_id : Nat) :
    List Checkpoint → Nat → List (Nat × Bool) → List Nat →
    RollbackResult × List Nat
  | [], steps, vers, att =>
    ({ status := .success, rolled_back_to := some target_id
       steps_executed := steps, steps_failed := 0
       reason := none, verification_results := vers }, att)
  | cp :: rest, steps, vers, att =>
    if cp.rollback_data.isNone then
      ({ status := .blocked, rolled_back_to := none
         steps_executed := steps, steps_failed := 1
         reason := some "no_rollback_data", verification_results := [] }, att)
    else
      match execute_rollback w cp with
      | .error _ =>
        ({ status := .failed, rolled_back_to := none
           steps_executed := steps, steps_failed := 1
           reason := some "rollback_exception"
           verification_results := vers }, att ++ [cp.id])
      | .ok r =>
        if ¬ r.success then
          ({ status := .failed, rolled_back_to := none
             steps_executed := steps, steps_failed := 1
             reason := some "rollback_execution_failed"
             verification_results := [] }, att ++ [cp.id])
        else
          let steps2 := steps + 1
          let v := verify_state_matches w ledger cp.id
          let vers2 := vers ++ [(cp.id, v)]
          if ¬ v then
            ({ status := .failed, rolled_back_to := none
               steps_executed := steps2, steps_failed := 1
               reason := some "state_verification_failed"
               verification_results := vers2 }, att ++ [cp.id])
          else
            rollbackWalk w ledger target_id rest steps2 vers2 (att ++ [cp.id])

/-- RollbackManager.rollback_to_checkpoint.  Validates the target, fetches the
    chain, and walks it most-recent-first; an empty chain is an immediate
    success with zero steps.  The second component lists the checkpoints on
    which an undo was attempted, in order. -/
def rollback_to_checkpoint (w : RbWorld) (ledger : Ledger) (target_id : Nat) :
    RollbackResult × List Nat :=
  match findCheckpoint ledger target_id with
  | none =>
    ({ status := .failed, rolled_back_to := none
       steps_executed := 0, steps_failed := 1
       reason := some "target_not_found", verification_results := [] }, [])
  | some _ =>
    match get_checkpoint_chain ledger target_id with
    | .error _ =>
      ({ status := .failed, rolled_back_to := none
         steps_executed := 0, steps_failed := 1
         reason := some "chain_retrieval_failed", verification_results := [] }, [])
    | .ok [] =>
      ({ status := .success, rolled_back_to := some target_id
         steps_executed := 0, steps_failed := 0
         reason := none, verification_results := [] }, [])
    | .ok chain =>
      rollbackWalk w ledger target_id chain.reverse 0 [] []

/-! Section: Verifier role (src/roles/verifier.py) -/

/-- A draft proposal, with the fields the verifier reads directly.  The file
    payloads are consumed only by the scan oracles below. -/
structure Draft where
  confidence_score : ℚ
  uncertainty_flags : List String
  estimated_complexity : String
  reasoning : String
deriving Repr

/-- One issue entry. -/
structure Issue where
  severity : String
  category : String
  description : String
deriving Repr, DecidableEq

/-- One risk flag. -/
structure RiskFlag where
  risk_type : String
  description : String
deriving Repr, DecidableEq

/-- The checks of verify_draft that shell out to Python regex scans and the
    Python compiler (_validate_file_paths, _validate_syntax, _security_scan,
    _check_breaking_changes), as pure oracles of the draft.  Groq schema
    validation and reasoning checks are off on the orchestrator path
    (create_verifier defaults use_groq_validation to False). -/
structure VerifierEnv where
  pathIssues : Draft → List Issue
  compileIssues : Draft → List Issue
  securityRisks : Draft → List RiskFlag
  breakingRisks : Draft → List RiskFlag

/-- The issues verify_draft accumulates for a draft: low drafter confidence
    (below 0.85) is a blocker; every drafter uncertainty flag is a blocker;
    path and compile issues from the scans; high complexity is a major issue. -/
def draftIssues (env : VerifierEnv) (draft : Draft) : List Issue :=
  (if draft.confidence_score < mkRat 85 100 then
     [{ severity := "blocker", category := "correctness"
        description := "Drafter confidence below threshold 0.85" }]
   else [])
  ++ draft.uncertainty_flags.map (fun f =>
      { severity := "blocker", category := "correctness"
        description := "Drafter uncertainty: " ++ f })
  ++ env.pathIssues draft
  ++ env.compileIssues draft
  ++ (if draft.estimated_complexity = "complex" ∨ draft.estimated_complexity = "expert" then
        [{ severity := "major", category := "maintainability"
           description := "High complexity requires careful review" }]
      else [])

/-- The risk flags verify_draft accumulates: security scan plus breaking
    changes. -/
def draftRiskFlags (env : VerifierEnv) (draft : Draft) : List RiskFlag :=
  env.securityRisks draft ++ env.breakingRisks draft

/-- The decision logic of verify_draft: blockers reject; security risks
    escalate to compliance; major issues request revision; else approved. -/
def verifyDecision (env : VerifierEnv) (draft : Draft) : String :=
  let issues := draftIssues env draft
  let risks := draftRiskFlags env draft
  if issues.any (fun i => i.severity == "blocker") then "rejected"
  else if risks.any (fun r => r.risk_type == "security") then "escalate_to_compliance"
  else if issues.any (fun i => i.severity == "major") then "revision_required"
  else "approved"

/-- The verifier confidence attached to each decision. -/
def verifierConfidence (env : VerifierEnv) (draft : Draft) : ℚ :=
  let issues := draftIssues env draft
  let risks := draftRiskFlags env draft
  if issues.any (fun i => i.severity == "blocker") then mkRat 95 100
  else if risks.any (fun r => r.risk_type == "security") then mkRat 90 100
  else if issues.any (fun i => i.severity == "major") then mkRat 85 100
  else mkRat 95 100

/-- The verification result dict (the fields the orchestrator and compliance
    read). -/
structure VerificationOut where
  decision : String
  issues_found : List Issue
  risk_flags : List RiskFlag
  verifier_confidence : ℚ
  checkpoint_id : Nat
deriving Repr

/-- Verifier.verify_draft.  Opens a verification checkpoint over the live
    snapshot, computes the checks and the decision, and completes the
    checkpoint with the result as outputs (a non-empty dict, so an outputs
    hash is computed) and an invalidate_verification rollback payload.  The
    exception branch (fail_checkpoint) is unreachable here because every
    check is a pure oracle.  The snapshot content is the serialized
    draft/task/context; only its hash is ever consulted, so it is modelled by
    a one-entry map. -/
def verify_draft (env : VerifierEnv) (ledger : Ledger) (draft : Draft)
    (task : Task) : VerificationOut × Ledger :=
  let created := create_checkpoint ledger task.project_id
    (some "verification") "verify_draft"
    [("snapshot", "draft task project_context")] (some task.id)
    none none none none
  let cp := created.1
  let ledger1 := created.2
  let result : VerificationOut := {
    decision := verifyDecision env draft
    issues_found := draftIssues env draft
    risk_flags := draftRiskFlags env draft
    verifier_confidence := verifierConfidence env draft
    checkpoint_id := cp.id }
  let ledger2 := (complete_checkpoint ledger1 cp.id none
    (some [("decision", result.decision)])
    (some { fields := [("action", "invalidate_verification")], operations := [] })).2
  (result, ledger2)

/-! Section: Compliance role (src/roles/compliance.py) -/

/-- The compliance decision dict consumed by the orchestrator. -/
structure ComplianceOut where
  decision : String
  failed_policies : List String
  requires_human : Bool
deriving Repr, DecidableEq

/-- check_security_policy over the risk_flags and issues_found lists of a
    verification result: descriptions of security risk flags plus
    security-category issues. -/
def securityPolicyIssues (risk_flags : List RiskFlag) (issues_found : List Issue) :
    List String :=
  (risk_flags.filter (fun f => f.risk_type == "security")).map (·.description)
  ++ ((issues_found.filter (fun i => i.category == "security")).map (·.description))

/-- check_breaking_change_policy. -/
def breakingPolicyIssues (risk_flags : List RiskFlag) : List String :=
  (risk_flags.filter (fun f => f.risk_type == "breaking_change")).map (·.description)

/-- check_external_api_policy. -/
def externalPolicyIssues (risk_flags : List RiskFlag) : List String :=
  (risk_flags.filter (fun f => f.risk_type == "external_dependency")).map (·.description)

/-- The budget policy verdict ("pass" or "fail"), an oracle standing for the
    projects-table budget lookup of check_budget_policy. -/
abbrev BudgetVerdict := String

/-- The failed-policy list of Compliance.review_proposal. -/
def failedPolicies (budget : BudgetVerdict) (risk_flags : List RiskFlag)
    (issues_found : List Issue) : List String :=
  (if securityPolicyIssues risk_flags issues_found ≠ [] then ["security_review"] else [])
  ++ (if breakingPolicyIssues risk_flags ≠ [] then ["breaking_change"] else [])
  ++ (if externalPolicyIssues risk_flags ≠ [] then ["external_api"] else [])
  ++ (if budget == "fail" then ["budget_check"] else [])

/-- The compliance decision: cleared when no policy failed, otherwise
    human_review_required (with a security-team escalation and a hold when
    the security policy failed). -/
def complianceDecision (budget : BudgetVerdict) (risk_flags : List RiskFlag)
    (issues_found : List Issue) : ComplianceOut :=
  let failed := failedPolicies budget risk_flags issues_found
  if failed = [] then
    { decision := "cleared", failed_policies := [], requires_human := false }
  else
    { decision := "human_review_required", failed_policies := failed
      requires_human := true }

/-- Compliance.review_proposal: computes the decision over the verification
    result and, when the security policy failed, applies a hold (tasks row
    set to held / compliance). -/
def review_proposal (budget : BudgetVerdict) (tasks : Tasks) (vr : VerificationOut)
    (task : Task) : ComplianceOut × Tasks :=
  let out := complianceDecision budget vr.risk_flags vr.issues_found
  if "security_review" ∈ out.failed_policies then
    (out, (updateTask tasks task.id (fun u =>
      { u with status := "held", current_phase := some "compliance" })).2)
  else (out, tasks)

/-! Section: Orchestrator (src/orchestrator.py) -/

/-- generate_draft result.  Modelled from the spec: the Drafter collaborator
    (roles/drafter.py is absent from src) exposes
    generateDraft(task, projectContext) with success, draft or error, and an
    optional halt reason; the orchestrator reads success, halted and the
    draft. -/
structure DraftOutcome where
  success : Bool
  halted : Bool
  message : String
  draft : Draft
deriving Repr

/-- execute result.  Modelled from the spec: the Executor collaborator
    (roles/executor.py is absent from src) exposes
    execute(approval, draft, task, projectContext) with success, artifacts or
    error, and committed/pushed/prCreated flags; the orchestrator reads
    success and error. -/
structure ExecOutcome where
  success : Bool
  error : String
deriving Repr

/-- The collaborators and oracles of one execute_task run. -/
structure OrchEnv where
  drafter : DraftOutcome
  executor : ExecOutcome
  venv : VerifierEnv
  budget : BudgetVerdict

/-- Database state the orchestrator touches: tasks and the checkpoint ledger. -/
structure OrchSt where
  tasks : Tasks
  checkpoints : Ledger

/-- The result dict of execute_task (the fields every caller reads). -/
structure TaskResult where
  success : Bool
  phase : Option String
  halted : Bool
  decision : Option String
deriving Repr, DecidableEq

/-- _handle_failure.  The V3 retry branch is guarded by a literal False in the
    source and never taken; the task is set to halted or failed in the failing
    phase. -/
def handle_failure (st : OrchSt) (task : Task) (phase : String) (halted : Bool) :
    TaskResult × OrchSt :=
  let tasks2 := (updateTask st.tasks task.id (fun u =>
    { u with status := if halted then "halted" else "failed"
             current_phase := some phase })).2
  ({ success := false, phase := some phase, halted := halted, decision := none },
   { st with tasks := tasks2 })

/-- _handle_verification_failure: escalations await review, revision requests
    route to needs_revision, anything else fails; the phase is recorded as
    verification. -/
def handle_verification_failure (st : OrchSt) (task : Task) (decision : String) :
    TaskResult × OrchSt :=
  let status :=
    if decision = "escalate_to_compliance" then "awaiting_review"
    else if decision = "revision_required" then "needs_revision"
    else "failed"
  let tasks2 := (updateTask st.tasks task.id (fun u =>
    { u with status := status, current_phase := some "verification" })).2
  ({ success := false, phase := some "verification", halted := false
     decision := some decision }, { st with tasks := tasks2 })

/-- _handle_compliance_failure: human_review_required awaits review, any other
    non-cleared decision blocks; the phase is recorded as compliance. -/
def handle_compliance_failure (st : OrchSt) (task : Task) (decision : String) :
    TaskResult × OrchSt :=
  let status := if decision = "human_review_required" then "awaiting_review" else "blocked"
  let tasks2 := (updateTask st.tasks task.id (fun u =>
    { u with status := status, current_phase := some "compliance" })).2
  ({ success := false, phase := some "compliance", halted := false
     decision := some decision }, { st with tasks := tasks2 })

/-- TaskOrchestrator.execute_task.  Marks the task running in the drafting
    phase, runs Drafter → Verifier → Compliance → Executor, routes every
    non-success outcome to the matching failure handler, and on full success
    marks the task complete.  The orchestrator itself never opens a
    checkpoint; the only ledger write of the whole pipeline is the
    verification checkpoint opened and completed inside verify_draft.
    The surrounding try/except is unreachable in the model because every
    collaborator is a pure oracle. -/
def execute_task (env : OrchEnv) (st : OrchSt) (task : Task) : TaskResult × OrchSt :=
  let tasks0 := (updateTask st.tasks task.id (fun u =>
    { u with status := "running", current_phase := some "drafting" })).2
  let st0 : OrchSt := { st with tasks := tasks0 }
  if ¬ env.drafter.success then
    handle_failure st0 task "drafting" env.drafter.halted
  else
    let tasks1 := (updateTask st0.tasks task.id (fun u =>
      { u with current_phase := some "verification" })).2
    let vres := verify_draft env.venv st.checkpoints env.drafter.draft task
    let vr := vres.1
    let st1 : OrchSt := { tasks := tasks1, checkpoints := vres.2 }
    if vr.decision ≠ "approved" then
      handle_verification_failure st1 task vr.decision
    else
      let tasks2 := (updateTask st1.tasks task.id (fun u =>
        { u with current_phase := some "compliance" })).2
      let cres := review_proposal env.budget tasks2 vr task
      let cr := cres.1
      let st2 : OrchSt := { st1 with tasks := cres.2 }
      if cr.decision ≠ "cleared" then
        handle_compliance_failure st2 task cr.decision
      else
        let tasks4 := (updateTask st2.tasks task.id (fun u =>
          { u with current_phase := some "execution" })).2
        let st3 : OrchSt := { st2 with tasks := tasks4 }
        if ¬ env.executor.success then
          handle_failure st3 task "execution" false
        else
          let tasks5 := (updateTask st3.tasks task.id (fun u =>
            { u with status := "complete", current_phase := some "complete" })).2
          ({ success := true, phase := some "complete", halted := false
             decision := none }, { st3 with tasks := tasks5 })

/-! Section: Concurrent sequence assignment (claim C8)

get_next_sequence is a SELECT in its own auto-committed statement; the later
INSERT of create_checkpoint runs in a second statement with no lock spanning
the two.  A creator is therefore a two-step program: read the max-plus-one,
then insert a row carrying the value read.  The interleaving of two creators
is modelled by a boolean schedule. -/

/-- Local state of one in-flight create_checkpoint call. -/
structure CreatorK where
  seqRead : Option Nat
  inserted : Bool
deriving Repr, DecidableEq

/-- A minimal checkpoint row inserted by the C8 creator model. -/
def seqRow (ledger : Ledger) (seq : Nat) (pid tid : String) : Checkpoint :=
  { id := nextRowId ledger
    global_sequence := seq
    project_id := pid
    task_id := some tid
    phase := some "drafting"
    step_name := "step"
    state_snapshot := some []
    inputs_hash := some (compute_hash [])
    outputs_hash := none
    status := "created"
    previous_checkpoint_id := none
    rollback_data := none
    error_details := none }

/-- One scheduler step of a creator: first the sequence read (its own SQL
    statement), then the insert of the row carrying the value read. -/
def creatorStep (ledger : Ledger) (c : CreatorK) (pid tid : String) :
    Ledger × CreatorK :=
  match c.seqRead, c.inserted with
  | none, _ => (ledger, { c with seqRead := some (get_next_sequence ledger) })
  | some seq, false => (ledger ++ [seqRow ledger seq pid tid], { c with inserted := true })
  | some _, true => (ledger, c)

/-- Run a schedule over two concurrent creators A (false) and B (true). -/
def runSchedule (pid tidA tidB : String) :
    List Bool → Ledger × CreatorK × CreatorK → Ledger × CreatorK × CreatorK
  | [], s => s
  | b :: rest, (ledger, ca, cb) =>
    if b then
      let (ledger2, cb2) := creatorStep ledger cb pid tidB
      runSchedule pid tidA tidB rest (ledger2, ca, cb2)
    else
      let (ledger2, ca2) := creatorStep ledger ca pid tidA
      runSchedule pid tidA tidB rest (ledger2, ca2, cb)

/-! Section: Helper lemmas -/

theorem find?_map_ite {α : Type _} (p : α → Bool) (f : α → α)
    (hf : ∀ a, p a = true → p (f a) = true) :
    ∀ l : List α, List.find? p (l.map (fun a => if p a = true then f a else a)) =
      Option.map f (List.find? p l)
  | [] => rfl
  | a :: l => by
    by_cases h : p a = true
    · rw [List.map_cons, if_pos h, List.find?_cons_of_pos _ (hf a h),
        List.find?_cons_of_pos _ h]
      rfl
    · rw [List.map_cons, if_neg h, List.find?_cons_of_neg _ h,
        List.find?_cons_of_neg _ h]
      exact find?_map_ite p f hf l

theorem findTask_updateTask (tasks : Tasks) (tid : String) (f : Task → Task)
    (hf : ∀ u, (f u).id = u.id) :
    findTask (updateTask tasks tid f).2 tid = (findTask tasks tid).map f := by
  have h := find?_map_ite (fun u : Task => u.id == tid) f
    (fun u hu => by simp only []; rw [hf u]; exact hu) tasks
  simpa [findTask, updateTask] using h

theorem mem_updateTask {t : Task} {tasks : Tasks} (tid : String) (f : Task → Task)
    (hmem : t ∈ tasks) (hid : (t.id == tid) = true) :
    f t ∈ (updateTask tasks tid f).2 := by
  have h := List.mem_map_of_mem (fun u => if u.id == tid then f u else u) hmem
  simpa [updateTask, hid] using h

theorem findTask_filter_pos {tasks : Tasks} {tid : String} {t : Task}
    (h : findTask tasks tid = some t) :
    0 < (tasks.filter (fun u => u.id == tid)).length := by
  have h' : tasks.find? (fun u => u.id == tid) = some t := h
  have hmem : t ∈ tasks := List.mem_of_find?_eq_some h'
  have hp : (t.id == tid) = true :=
    List.find?_some (p := fun u : Task => u.id == tid) h'
  have hft : t ∈ tasks.filter (fun u => u.id == tid) :=
    List.mem_filter.mpr ⟨hmem, hp⟩
  exact List.length_pos_of_mem hft

theorem findCheckpoint_complete (ledger : Ledger) (cid : Nat)
    (oh : Option String) (outs : Option StrMap) (rb : Option RollbackData) :
    findCheckpoint (complete_checkpoint ledger cid oh outs rb).2 cid =
      (findCheckpoint ledger cid).map (fun c =>
        { c with
          status := "complete"
          outputs_hash :=
            if truthyStr oh then oh
            else if truthyMap outs then some (compute_hash (outs.getD []))
            else c.outputs_hash
          rollback_data := if rb.isSome then rb else c.rollback_data }) := by
  have h := find?_map_ite (fun c : Checkpoint => c.id == cid)
    (fun c => { c with
      status := "complete"
      outputs_hash :=
        if truthyStr oh then oh
        else if truthyMap outs then some (compute_hash (outs.getD []))
        else c.outputs_hash
      rollback_data := if rb.isSome then rb else c.rollback_data })
    (fun c hc => hc) ledger
  simpa [findCheckpoint, complete_checkpoint] using h

/-! Section: Claim C5: record_retry behaviour -/

/-- Claim C5, counterexample.  For a task whose retry_count is 2 (one below
    the default cap of 3), record_retry increments to the cap and sets the
    status to permanently_failed, not "queued" as the claim states, while
    still returning true. -/
theorem C5_requeue_counterexample :
    let t : Task := { id := "t1", project_id := "p", status := "running"
                      current_phase := none, retry_count := 2
                      retry_history := [], next_retry_at := none }
    let r := record_retry {} [t] "t1" (some "boom") 1000
    r.1 = true ∧
    (findTask r.2 "t1").map (·.status) = some "permanently_failed" ∧
    (findTask r.2 "t1").map (·.status) ≠ some "queued" := by
  refine ⟨rfl, rfl, ?_⟩
  decide

/-- Claim C5, amended.  record_retry at or past the cap marks the task
    permanently_failed and returns false; below the cap it returns true,
    increments retry_count, appends the history entry, and sets
    next_retry_at = now + min(max_delay, base_delay * 2^retry_count) — but
    the task is re-queued (status "queued") only when the incremented count
    is still below the cap; when the increment reaches the cap the status
    becomes "permanently_failed" instead.  The default delay sequence is
    30, 60, 120 seconds. -/
theorem C5_record_retry_amended (m : RetryManager) (tasks : Tasks) (tid : String)
    (reason : Option String) (now : Nat) (t : Task)
    (ht : findTask tasks tid = some t) :
    (m.max_retries ≤ t.retry_count →
      (record_retry m tasks tid reason now).1 = false ∧
      findTask (record_retry m tasks tid reason now).2 tid =
        some { t with status := "permanently_failed" }) ∧
    (t.retry_count < m.max_retries →
      (record_retry m tasks tid reason now).1 = true ∧
      findTask (record_retry m tasks tid reason now).2 tid =
        some { t with
          retry_count := t.retry_count + 1
          retry_history := t.retry_history ++
            [{ attempt := t.retry_count + 1, timestamp := now, reason := reason }]
          status := if m.max_retries ≤ t.retry_count + 1 then "permanently_failed"
                    else "queued"
          next_retry_at :=
            some (now + min m.max_delay (m.base_delay * 2 ^ t.retry_count)) }) ∧
    (get_retry_delay {} 1 = 30 ∧ get_retry_delay {} 2 = 60 ∧
     get_retry_delay {} 3 = 120) := by
  refine ⟨?_, ?_, by decide, by decide, by decide⟩
  · intro hcap
    refine ⟨by simp [record_retry, ht, hcap], ?_⟩
    simp only [record_retry, ht, if_pos hcap]
    rw [findTask_updateTask]
    · rw [ht]; rfl
    · intro u; rfl
  · intro hlt
    have hcap : ¬ m.max_retries ≤ t.retry_count := Nat.not_le.mpr hlt
    refine ⟨?_, ?_⟩
    · simp only [record_retry, ht, if_neg hcap]
      simp only [updateTask, decide_eq_true_eq]
      exact findTask_filter_pos ht
    · simp only [record_retry, ht, if_neg hcap]
      rw [findTask_updateTask]
      · rw [ht]
        simp [get_retry_delay]
      · intro u; rfl

/-- Claim C5, witness for the amended theorem at a concrete below-cap task. -/
theorem C5_record_retry_amended_witness :
    let t : Task := { id := "t1", project_id := "p", status := "running"
                      current_phase := none, retry_count := 0
                      retry_history := [], next_retry_at := none }
    (record_retry {} [t] "t1" (some "x") 50).1 = true := by
  intro t
  have h := C5_record_retry_amended {} [t] "t1" (some "x") 50 t rfl
  exact (h.2.1 (by decide)).1

/-! Section: Claim C6: ledger hash invariant -/

/-- Claim C6, counterexample.  Create a checkpoint (outputs_hash null), then
    complete it passing neither an outputs_hash nor outputs: the checkpoint
    ends with status "complete" and a null outputs_hash, violating the
    claimed invariant that complete_checkpoint never leaves a completed
    checkpoint without an outputs_hash. -/
theorem C6_complete_without_outputs_counterexample :
    let (cp, ledger1) := create_checkpoint [] "p" (some "drafting") "step" []
      (some "t1") none none none none
    let ledger2 := (complete_checkpoint ledger1 cp.id none none none).2
    (findCheckpoint ledger2 cp.id).map (·.status) = some "complete" ∧
    (findCheckpoint ledger2 cp.id).map (·.outputs_hash) = some none := by
  exact ⟨rfl, rfl⟩

/-- Claim C6, amended.  Every checkpoint is created with a non-null
    inputs_hash (create_checkpoint computes one from the snapshot when none
    is supplied); and complete_checkpoint yields a completed checkpoint with a
    non-null outputs_hash whenever it is passed a truthy outputs_hash or
    truthy outputs — called with neither, it marks the checkpoint complete
    leaving outputs_hash exactly as it was (hence possibly null). -/
theorem C6_ledger_invariant_amended :
    (∀ (ledger : Ledger) (pid : String) (ph : Option String) (sn : String)
      (ss : StrMap) (tid : Option String) (ih oh : Option String)
      (prev : Option Nat) (rb : Option RollbackData),
      (create_checkpoint ledger pid ph sn ss tid ih oh prev rb).1.inputs_hash.isSome
        = true) ∧
    (∀ (ledger : Ledger) (cid : Nat) (oh : Option String) (outs : Option StrMap)
      (rb : Option RollbackData) (c : Checkpoint),
      findCheckpoint ledger cid = some c →
      ∃ d, findCheckpoint (complete_checkpoint ledger cid oh outs rb).2 cid = some d ∧
        d.status = "complete" ∧
        ((truthyStr oh = true ∨ truthyMap outs = true) → d.outputs_hash.isSome = true) ∧
        (truthyStr oh = false → truthyMap outs = false →
          d.outputs_hash = c.outputs_hash)) := by
  constructor
  · intro ledger pid ph sn ss tid ih oh prev rb
    cases ih <;> simp [create_checkpoint]
  · intro ledger cid oh outs rb c hc
    refine ⟨_, by rw [findCheckpoint_complete, hc]; rfl, rfl, ?_, ?_⟩
    · intro h
      cases h with
      | inl h => simp only [h, if_true]; cases oh with
        | none => simp [truthyStr] at h
        | some s => simp
      | inr h =>
        by_cases h2 : truthyStr oh = true
        · simp only [h2, if_true]
          cases oh with
          | none => simp [truthyStr] at h2
          | some s => simp
        · simp only [h2]
          simp only [Bool.not_eq_true] at h2
          simp [h2, h]
    · intro h1 h2
      simp [h1, h2]

/-- Claim C6, witness for the amended theorem: completing an existing
    checkpoint with concrete truthy outputs yields a non-null outputs_hash. -/
theorem C6_ledger_invariant_amended_witness :
    let r := create_checkpoint [] "p" (some "drafting") "step" []
      (some "t1") none none none none
    ∃ d, findCheckpoint
        (complete_checkpoint r.2 r.1.id none (some [("result", "ok")]) none).2
        r.1.id = some d ∧
      d.status = "complete" ∧ d.outputs_hash.isSome = true := by
  intro r
  obtain ⟨d, hd, hst, him, _⟩ :=
    (C6_ledger_invariant_amended.2 r.2 r.1.id none (some [("result", "ok")])
      none r.1 (by rfl))
  exact ⟨d, hd, hst, him (Or.inr (by decide))⟩

/-! Section: Claims C7 and C10: IMR Pentagon -/

/-- Claim C7, confirmed.  In validate_all: the audit write (Record) is
    attempted exactly when Inputs, Method, Rules and Review are all pass;
    when it is not attempted the record result is a fail; an audit-write
    exception yields a fail record result; and the overall valid flag is
    true exactly when all five results are pass — so any single failure
    makes valid false. -/
theorem C7_pentagon_all_or_nothing (env : PentagonEnv) (tasks : Tasks) (now : Nat)
    (step_name : String) (ctx : PContext) (approval : Option Approval) :
    let r := (validate_all env tasks now step_name ctx approval).1
    let att := (validate_all env tasks now step_name ctx approval).2
    (att = true ↔ (r.inputs.status = .pass ∧ r.method.status = .pass ∧
      r.rules.status = .pass ∧ r.review.status = .pass)) ∧
    (att = false → r.record.status = .fail) ∧
    ((∃ e, env.auditInsert = .error e) → r.record.status = .fail) ∧
    (r.valid = true ↔ (r.inputs.status = .pass ∧ r.method.status = .pass ∧
      r.rules.status = .pass ∧ r.review.status = .pass ∧
      r.record.status = .pass)) := by
  intro r att
  by_cases hfour : (validate_inputs step_name ctx.inputs).status = VStatus.pass ∧
      (check_rules tasks step_name ctx).status = VStatus.pass ∧
      (verify_review now approval).status = VStatus.pass
  · obtain ⟨h1, h2, h3⟩ := hfour
    cases ha : env.auditInsert with
    | ok n =>
      refine ⟨?_, ?_, ?_, ?_⟩ <;>
        simp [r, att, validate_all, h1, h2, h3, ha]
    | error e =>
      refine ⟨?_, ?_, ?_, ?_⟩ <;>
        simp [r, att, validate_all, h1, h2, h3, ha]
  · refine ⟨?_, ?_, ?_, ?_⟩ <;>
      simp [r, att, validate_all, hfour]

/-- Claim C7, witness: with a failing audit write and otherwise arbitrary
    concrete arguments, the record result is a fail and valid is false. -/
theorem C7_pentagon_all_or_nothing_witness :
    let env : PentagonEnv := { auditInsert := .error "db down" }
    let ctx : PContext := { task_id := some "t1", inputs := []
                            uncommitted_changes := none, source_branch := none
                            target_branch := none, approval_record := none }
    (validate_all env [] 0 "git_push" ctx none).1.record.status = VStatus.fail := by
  intro env ctx
  exact (C7_pentagon_all_or_nothing env [] 0 "git_push" ctx none).2.2.1
    ⟨"db down", rfl⟩

/-- Claim C10, confirmed.  For any step name outside the REQUIRED_INPUTS
    table and any context, the Inputs check yields a warning (not a pass),
    the Record check is skipped and marked fail, and validate_all returns
    valid = false: an unclassified action can never pass the Pentagon gate. -/
theorem C10_unknown_action_never_valid (step_name : String)
    (hstep : REQUIRED_INPUTS step_name = none)
    (env : PentagonEnv) (tasks : Tasks) (now : Nat) (ctx : PContext)
    (approval : Option Approval) :
    let r := (validate_all env tasks now step_name ctx approval).1
    r.valid = false ∧ r.inputs.status = .warning ∧ r.record.status = .fail ∧
      (validate_all env tasks now step_name ctx approval).2 = false := by
  intro r
  have hw : validate_inputs step_name ctx.inputs =
      { status := .warning
        message := "Step " ++ step_name ++ " not in known irreversible actions" } := by
    simp [validate_inputs, hstep]
  have hns : (validate_inputs step_name ctx.inputs).status = .warning := by
    rw [hw]
  have hskip : ¬ ((validate_inputs step_name ctx.inputs).status = VStatus.pass ∧
      ({ status := VStatus.pass,
         message := "Execution method defined for " ++ step_name } : VResult).status
        = VStatus.pass ∧
      (check_rules tasks step_name ctx).status = VStatus.pass ∧
      (verify_review now approval).status = VStatus.pass) := by
    intro ⟨a, _, _, _⟩
    rw [hns] at a
    exact VStatus.noConfusion a
  refine ⟨?_, ?_, ?_, ?_⟩ <;>
    simp only [r, validate_all, if_neg hskip] <;> simp [hns]

/-- Claim C10, witness at a concrete unknown step name. -/
theorem C10_unknown_action_never_valid_witness :
    let ctx : PContext := { task_id := none, inputs := []
                            uncommitted_changes := none, source_branch := none
                            target_branch := none, approval_record := none }
    (validate_all { auditInsert := .ok 1 } [] 0 "launch_rocket" ctx none).1.valid
      = false := by
  intro ctx
  exact (C10_unknown_action_never_valid "launch_rocket" rfl
    { auditInsert := .ok 1 } [] 0 ctx none).1

/-! Section: Claim C4: phase-transition table and its enforcement -/

/-- The prev_phase accumulator after a list of rows. -/
def prevFold (prev : Option String) (l : List ChainRow) : Option String :=
  l.foldl nextPrevPhase prev

theorem chainLoop_append (l1 l2 : List ChainRow) :
    ∀ (prev : Option String) (issues : List ChainIssue) (cnt : Nat),
    chainLoop prev issues cnt (l1 ++ l2) =
      chainLoop (prevFold prev l1) (chainLoop prev issues cnt l1).1
        (chainLoop prev issues cnt l1).2 l2 := by
  induction l1 with
  | nil => intro prev issues cnt; rfl
  | cons cp rest ih =>
    intro prev issues cnt
    simp only [List.cons_append, chainLoop, prevFold, List.foldl_cons]
    exact ih _ _ _

theorem chainLoop_issues_mono (l : List ChainRow) :
    ∀ (prev : Option String) (issues : List ChainIssue) (cnt : Nat),
    ∃ suffix, (chainLoop prev issues cnt l).1 = issues ++ suffix := by
  induction l with
  | nil => intro prev issues cnt; exact ⟨[], by simp [chainLoop]⟩
  | cons cp rest ih =>
    intro prev issues cnt
    simp only [chainLoop]
    by_cases h : chainRowIssues prev cp ≠ []
    · simp only [if_pos h]
      obtain ⟨s, hs⟩ := ih (nextPrevPhase prev cp)
        (issues ++ [{ checkpoint_id := some cp.id,
                      issue := String.intercalate "; " (chainRowIssues prev cp) }])
        cnt
      exact ⟨_, by rw [hs, List.append_assoc]⟩
    · simp only [if_neg h]
      exact ih _ _ _

/-- Claim C4, counterexample.  A task chain of two well-formed checkpoints
    stepping verification → execution: this pair is outside the transition
    table the claim states (which routes verification through compliance
    before execution), yet verify_task_chain reports no issue at all — so the
    allowed transitions are not the claimed table, and out-of-claimed-table
    transitions are silently accepted. -/
theorem C4_transition_table_counterexample :
    let rows : List ChainRow :=
      [{ id := 1, global_sequence := 1, phase := some "verification"
         step_name := "verify_draft", status := "created"
         has_state := true, has_inputs := true, has_outputs := false },
       { id := 2, global_sequence := 2, phase := some "execution"
         step_name := "execute", status := "created"
         has_state := true, has_inputs := true, has_outputs := false }]
    ("verification", "execution") ∉ specAllowedTransitions ∧
    (verify_task_chain rows).issues = [] ∧
    (verify_task_chain rows).is_valid = true := by
  refine ⟨by decide, ?_, ?_⟩ <;> rfl

/-- Claim C4, amended.  The transition table the code implements has no
    compliance phase: it is preparation → drafting, drafting → verification
    (or drafting again), verification → execution or back to drafting,
    execution → confirmation or back to verification, confirmation terminal.
    The chain verifier reports an issue naming the offending checkpoint for
    every consecutive pair whose phases are non-empty, differ, and whose
    transition is outside this implemented table; a same-phase pair is never
    flagged.  Stated here: whenever the ordered chain contains an adjacent
    pair a, b with truthy phases pa ≠ pb and pb outside the table row of pa,
    the report contains an issue for b. -/
theorem C4_chain_verifier_amended (rows : List ChainRow)
    (pre post : List ChainRow) (a b : ChainRow) (pa pb : String)
    (hsorted : insertionSort (fun x y => x.global_sequence ≤ y.global_sequence) rows
      = pre ++ a :: b :: post)
    (hpa : a.phase = some pa) (hpa2 : pa ≠ "")
    (hpb : b.phase = some pb) (hpb2 : pb ≠ "")
    (hne : pb ≠ pa) (htab : pb ∉ validNext (some pa)) :
    ∃ e ∈ (verify_task_chain rows).issues, e.checkpoint_id = some b.id := by
  have hne2 : pre ++ a :: b :: post ≠ [] := by
    intro h
    exact absurd (List.append_eq_nil.mp h).2 (by simp)
  unfold verify_task_chain
  rw [hsorted, if_neg hne2]
  simp only
  rw [show pre ++ a :: b :: post = (pre ++ [a]) ++ b :: post by simp]
  rw [chainLoop_append]
  have hprev : prevFold none (pre ++ [a]) = some pa := by
    simp [prevFold, nextPrevPhase, hpa, hpa2]
  rw [hprev]
  simp only [chainLoop]
  have hbad : chainRowIssues (some pa) b ≠ [] := by
    simp only [chainRowIssues, hpb]
    rw [if_pos ⟨hpb2, hne, htab⟩]
    simp
  simp only [if_pos hbad]
  obtain ⟨s, hs⟩ := chainLoop_issues_mono post (nextPrevPhase (some pa) b)
    ((chainLoop none [] 0 (pre ++ [a])).1 ++
      [{ checkpoint_id := some b.id,
         issue := String.intercalate "; " (chainRowIssues (some pa) b) }])
    (chainLoop none [] 0 (pre ++ [a])).2
  rw [hs]
  refine ⟨{ checkpoint_id := some b.id,
            issue := String.intercalate "; " (chainRowIssues (some pa) b) }, ?_, rfl⟩
  simp

/-- Claim C4, witness for the amended theorem: a chain stepping
    drafting → confirmation (outside the implemented table) is reported. -/
theorem C4_chain_verifier_amended_witness :
    let ra : ChainRow := { id := 1, global_sequence := 1, phase := some "drafting"
                           step_name := "draft", status := "created"
                           has_state := true, has_inputs := true, has_outputs := false }
    let rb : ChainRow := { id := 2, global_sequence := 2, phase := some "confirmation"
                           step_name := "confirm", status := "created"
                           has_state := true, has_inputs := true, has_outputs := false }
    ∃ e ∈ (verify_task_chain [ra, rb]).issues, e.checkpoint_id = some 2 := by
  intro ra rb
  exact C4_chain_verifier_amended [ra, rb] [] [] ra rb "drafting" "confirmation"
    (by decide) rfl (by decide) rfl (by decide) (by decide) (by decide)

/-! Section: Claim C9: halt detection does not flap -/

/-- Claim C9, confirmed.  A detection pass (check_uncertainty_language
    followed by check_confidence_score) on the same detector and identical
    input is reproducible and accumulative: re-running it returns exactly the
    same found signals, every signal of the first pass (halt signals
    included) is still present afterwards, and has_halt_signals stays true
    once it is true.  The external Groq verdict is a fixed function of the
    text (the oracle), and it is only consulted when the regex pass found
    nothing — the same condition in both passes. -/
theorem C9_halt_no_flapping (groq : GroqOracle) (d : Detector) (text : String)
    (score : ℚ) (source : String) (deep : Bool) :
    let r1 := detectionPass groq d text score source deep
    let r2 := detectionPass groq r1.2 text score source deep
    r2.1 = r1.1 ∧
    (∀ s ∈ r1.2.signals, s ∈ r2.2.signals) ∧
    (has_halt_signals r1.2 = true → has_halt_signals r2.2 = true) := by
  intro r1 r2
  have key : ∀ d' : Detector, d'.use_groq = d.use_groq →
      d'.confidence_threshold = d.confidence_threshold →
      (detectionPass groq d' text score source deep).1 =
        (detectionPass groq d text score source deep).1 ∧
      (detectionPass groq d' text score source deep).2.signals =
        d'.signals ++ ((detectionPass groq d text score source deep).1.1 ++
          (match (detectionPass groq d text score source deep).1.2 with
           | some s => [s]
           | none => [])) ∧
      (detectionPass groq d' text score source deep).2.use_groq = d.use_groq ∧
      (detectionPass groq d' text score source deep).2.confidence_threshold =
        d.confidence_threshold := by
    intro d' h1 h2
    simp only [detectionPass, check_uncertainty_language, check_confidence_score]
    rw [h1, h2]
    by_cases hc : score < d.confidence_threshold <;>
      simp [hc, List.append_assoc]
  obtain ⟨_, _, e3, e4⟩ := key d rfl rfl
  obtain ⟨f1, f2, _, _⟩ := key r1.2 e3 e4
  refine ⟨f1, ?_, ?_⟩
  · intro s hs
    rw [show r2.2 = (detectionPass groq r1.2 text score source deep).2 from rfl, f2]
    exact List.mem_append_left _ hs
  · intro h
    rw [show r2.2 = (detectionPass groq r1.2 text score source deep).2 from rfl]
    simp only [has_halt_signals] at *
    rw [f2, List.any_append, h]
    rfl

/-- Claim C9, witness: on the text "unsure" (a halt-severity pattern) with a
    below-threshold confidence score, the first pass halts and the repeated
    pass still halts. -/
theorem C9_halt_no_flapping_witness :
    let d : Detector := { confidence_threshold := mkRat 7 10, use_groq := false
                          signals := [] }
    let groq : GroqOracle := fun _ => none
    let r1 := detectionPass groq d "unsure" (mkRat 1 2) "drafter" false
    has_halt_signals r1.2 = true ∧
    has_halt_signals
        (detectionPass groq r1.2 "unsure" (mkRat 1 2) "drafter" false).2 = true := by
  intro d groq r1
  have h1 : has_halt_signals r1.2 = true := by decide
  have h := (C9_halt_no_flapping groq d "unsure" (mkRat 1 2) "drafter" false).2.2 h1
  exact ⟨h1, h⟩

/-! Section: Claims C2 and C3: rollback refusal and halt-on-failure -/

/-- A checkpoint whose undo goes through cleanly in world w: rollback data
    present, execute_rollback returns success, and the post-undo state
    verification passes. -/
def goodUndo (w : RbWorld) (ledger : Ledger) (cp : Checkpoint) : Prop :=
  cp.rollback_data.isSome = true ∧
  (∃ r, execute_rollback w cp = .ok r ∧ r.success = true) ∧
  verify_state_matches w ledger cp.id = true

theorem rollbackWalk_good_prefix (w : RbWorld) (ledger : Ledger) (tid : Nat) :
    ∀ (pre : List Checkpoint) (l : List Checkpoint) (steps : Nat)
      (vers : List (Nat × Bool)) (att : List Nat),
    (∀ cp ∈ pre, goodUndo w ledger cp) →
    rollbackWalk w ledger tid (pre ++ l) steps vers att =
      rollbackWalk w ledger tid l (steps + pre.length)
        (vers ++ pre.map (fun cp => (cp.id, true))) (att ++ pre.map (·.id)) := by
  intro pre
  induction pre with
  | nil => intro l steps vers att _; simp
  | cons cp rest ih =>
    intro l steps vers att h
    obtain ⟨hd, ⟨r, hr, hrs⟩, hv⟩ := h cp (by simp)
    have hrest : ∀ x ∈ rest, goodUndo w ledger x := fun x hx => h x (by simp [hx])
    have hbn : cp.rollback_data.isNone = false := by
      cases hcp : cp.rollback_data with
      | none => rw [hcp] at hd; simp at hd
      | some v => simp
    simp only [List.cons_append, rollbackWalk, hbn, Bool.false_eq_true, if_false, hr]
    simp only [hrs, not_true, if_false, hv, Bool.not_true]
    simp only [List.append_eq]
    rw [ih l (steps + 1) (vers ++ [(cp.id, true)]) (att ++ [cp.id]) hrest]
    have e1 : steps + 1 + rest.length = steps + (cp :: rest).length := by
      simp [List.length_cons]
      omega
    have e2 : (vers ++ [(cp.id, true)]) ++ rest.map (fun c => (c.id, true)) =
        vers ++ (cp :: rest).map (fun c => (c.id, true)) := by simp
    have e3 : (att ++ [cp.id]) ++ rest.map (·.id) =
        att ++ (cp :: rest).map (·.id) := by simp
    rw [e1, e2, e3]

/-- Claim C2, counterexample.  Ledger: target checkpoint 1; checkpoint 2
    (earlier in the path, no rollback data); checkpoint 3 (most recent,
    reversible with a clean undo).  The rollback walks 3 first, undoes it
    (one step), then hits 2 and returns blocked with steps_executed = 1 —
    not the zero undo operations the claim demands regardless of where the
    irreversible checkpoint lies. -/
theorem C2_blocked_steps_counterexample :
    let mk : Nat → Nat → Option RollbackData → Checkpoint := fun i seq rb =>
      { id := i, global_sequence := seq, project_id := "p", task_id := some "t"
        phase := some "drafting", step_name := "s", state_snapshot := some []
        inputs_hash := some "h", outputs_hash := some "o", status := "complete"
        previous_checkpoint_id := none, rollback_data := rb, error_details := none }
    let ledger : Ledger :=
      [mk 1 1 none, mk 2 2 none,
       mk 3 3 (some { fields := [("type", "file_operations")], operations := [] })]
    let w : RbWorld := { fileUndo := fun _ => .ok (), dbUndo := fun _ => .ok ()
                         gitUndo := fun _ => .ok ()
                         statusWrite := fun _ _ => .ok ()
                         verifyCheck := fun _ => true }
    (rollback_to_checkpoint w ledger 1).1.status = RollbackStatus.blocked ∧
    (rollback_to_checkpoint w ledger 1).1.steps_executed = 1 := by
  exact ⟨by decide, by decide⟩

/-- Claim C2, amended.  When the descending walk from the most recent
    completed checkpoint down to the target reaches a checkpoint with null
    rollback_data, and every more recent checkpoint in the path was
    reversible with a clean undo and verification, the rollback returns
    blocked — but steps_executed equals the number of checkpoints already
    undone before the irreversible one was reached (zero only when the
    irreversible checkpoint is the most recent), and exactly those
    checkpoints were attempted. -/
theorem C2_rollback_blocked_amended (w : RbWorld) (ledger : Ledger)
    (target_id : Nat) (chain pre rest : List Checkpoint) (bad : Checkpoint)
    (hchain : get_checkpoint_chain ledger target_id = .ok chain)
    (hrev : chain.reverse = pre ++ bad :: rest)
    (hgood : ∀ cp ∈ pre, goodUndo w ledger cp)
    (hbad : bad.rollback_data = none) :
    (rollback_to_checkpoint w ledger target_id).1.status = RollbackStatus.blocked ∧
    (rollback_to_checkpoint w ledger target_id).1.steps_executed = pre.length ∧
    (rollback_to_checkpoint w ledger target_id).2 = pre.map (·.id) := by
  obtain ⟨tgt, hfind⟩ : ∃ tgt, findCheckpoint ledger target_id = some tgt := by
    cases h : findCheckpoint ledger target_id with
    | none => rw [get_checkpoint_chain, h] at hchain; exact absurd hchain (by simp)
    | some tgt => exact ⟨tgt, rfl⟩
  cases chain with
  | nil => simp at hrev
  | cons x xs =>
    simp only [rollback_to_checkpoint, hfind, hchain]
    rw [hrev, rollbackWalk_good_prefix w ledger target_id pre (bad :: rest) 0 [] []
      hgood]
    have hbn : bad.rollback_data.isNone = true := by simp [hbad]
    simp only [rollbackWalk, hbn, if_true]
    refine ⟨by trivial, by simp, by simp⟩

/-- Claim C2, witness for the amended theorem: the irreversible checkpoint is
    the most recent one, so zero steps were executed before blocking. -/
theorem C2_rollback_blocked_amended_witness :
    let tgt : Checkpoint :=
      { id := 1, global_sequence := 1, project_id := "p", task_id := some "t"
        phase := some "drafting", step_name := "s", state_snapshot := some []
        inputs_hash := some "h", outputs_hash := some "o", status := "complete"
        previous_checkpoint_id := none, rollback_data := none, error_details := none }
    let bad : Checkpoint :=
      { id := 2, global_sequence := 2, project_id := "p", task_id := some "t"
        phase := some "drafting", step_name := "s", state_snapshot := some []
        inputs_hash := some "h", outputs_hash := some "o", status := "complete"
        previous_checkpoint_id := none, rollback_data := none, error_details := none }
    let w : RbWorld := { fileUndo := fun _ => .ok (), dbUndo := fun _ => .ok ()
                         gitUndo := fun _ => .ok ()
                         statusWrite := fun _ _ => .ok ()
                         verifyCheck := fun _ => true }
    (rollback_to_checkpoint w [tgt, bad] 1).1.status = RollbackStatus.blocked ∧
    (rollback_to_checkpoint w [tgt, bad] 1).1.steps_executed = 0 := by
  intro tgt bad w
  have h := C2_rollback_blocked_amended w [tgt, bad] 1 [bad] [] [] bad
    (by rfl) (by rfl) (by intro cp hcp; simp at hcp) rfl
  exact ⟨h.1, h.2.1⟩

/-- Claim C3, confirmed.  If the walk reaches a checkpoint whose undo fails,
    raises, or whose post-undo verification fails (every earlier one in the
    walk having gone through cleanly), the rollback returns status failed and
    the undo attempts stop exactly there: nothing later in the path is
    attempted. -/
theorem C3_rollback_halts_on_failure (w : RbWorld) (ledger : Ledger)
    (target_id : Nat) (chain pre rest : List Checkpoint) (c : Checkpoint)
    (hchain : get_checkpoint_chain ledger target_id = .ok chain)
    (hrev : chain.reverse = pre ++ c :: rest)
    (hgood : ∀ cp ∈ pre, goodUndo w ledger cp)
    (hdata : c.rollback_data.isSome = true)
    (hfail : (∃ e, execute_rollback w c = .error e) ∨
             (∃ r, execute_rollback w c = .ok r ∧ r.success = false) ∨
             ((∃ r, execute_rollback w c = .ok r ∧ r.success = true) ∧
               verify_state_matches w ledger c.id = false)) :
    (rollback_to_checkpoint w ledger target_id).1.status = RollbackStatus.failed ∧
    (rollback_to_checkpoint w ledger target_id).2 = pre.map (·.id) ++ [c.id] := by
  obtain ⟨tgt, hfind⟩ : ∃ tgt, findCheckpoint ledger target_id = some tgt := by
    cases h : findCheckpoint ledger target_id with
    | none => rw [get_checkpoint_chain, h] at hchain; exact absurd hchain (by simp)
    | some tgt => exact ⟨tgt, rfl⟩
  cases chain with
  | nil => simp at hrev
  | cons x xs =>
    simp only [rollback_to_checkpoint, hfind, hchain]
    rw [hrev, rollbackWalk_good_prefix w ledger target_id pre (c :: rest) 0 [] []
      hgood]
    have hbn : c.rollback_data.isNone = false := by
      cases hc : c.rollback_data with
      | none => rw [hc] at hdata; simp at hdata
      | some v => simp
    simp only [rollbackWalk, hbn, Bool.false_eq_true, if_false]
    rcases hfail with ⟨e, he⟩ | ⟨r, hr, hrs⟩ | ⟨⟨r, hr, hrs⟩, hv⟩
    · rw [he]
      refine ⟨by trivial, by simp⟩
    · rw [hr]
      simp only [hrs, Bool.false_eq_true, not_false_iff, if_true]
      refine ⟨by trivial, by simp⟩
    · rw [hr]
      simp only [hrs, not_true, if_false, hv, Bool.not_false, if_true]
      refine ⟨by trivial, by simp⟩

/-- Claim C3, witness: one clean checkpoint then one whose undo reports
    failure; the rollback fails and attempts exactly those two. -/
theorem C3_rollback_halts_on_failure_witness :
    let mk : Nat → Nat → String → Checkpoint := fun i seq ty =>
      { id := i, global_sequence := seq, project_id := "p", task_id := some "t"
        phase := some "drafting", step_name := "s", state_snapshot := some []
        inputs_hash := some "h", outputs_hash := some "o", status := "complete"
        previous_checkpoint_id := none
        rollback_data := some { fields := [("type", ty)], operations := [] }
        error_details := none }
    let tgt : Checkpoint :=
      { id := 1, global_sequence := 1, project_id := "p", task_id := some "t"
        phase := some "drafting", step_name := "s", state_snapshot := some []
        inputs_hash := some "h", outputs_hash := some "o", status := "complete"
        previous_checkpoint_id := none, rollback_data := none, error_details := none }
    let w : RbWorld := { fileUndo := fun _ => .ok ()
                         dbUndo := fun _ => .error "db refused"
                         gitUndo := fun _ => .ok ()
                         statusWrite := fun _ _ => .ok ()
                         verifyCheck := fun _ => true }
    let ledger : Ledger := [tgt, mk 2 2 "database_operations", mk 3 3 "file_operations"]
    (rollback_to_checkpoint w ledger 1).1.status = RollbackStatus.failed ∧
    (rollback_to_checkpoint w ledger 1).2 = [3, 2] := by
  intro mk tgt w ledger
  have h := C3_rollback_halts_on_failure w ledger 1
    [mk 2 2 "database_operations", mk 3 3 "file_operations"]
    [mk 3 3 "file_operations"] [] (mk 2 2 "database_operations")
    (by rfl) (by rfl)
    (by
      intro cp hcp
      simp only [List.mem_singleton] at hcp
      subst hcp
      refine ⟨by rfl, ⟨{ success := true, error := "" }, by rfl, rfl⟩, by rfl⟩)
    (by rfl)
    (Or.inr (Or.inl ⟨{ success := false, error := "db refused" }, by rfl, rfl⟩))
  exact ⟨h.1, by rw [h.2]; rfl⟩

/-! Section: Claim C8: global sequence under concurrency -/

/-- Claim C8, counterexample.  Two creators interleaved read-read-insert-insert
    from an empty ledger: both read max-plus-one = 1 and both insert
    global_sequence 1 — duplicate sequence numbers, although A's insert
    happened before B's.  The read and the insert are separate SQL
    statements with no lock spanning them, so the claimed atomicity does not
    hold. -/
theorem C8_duplicate_sequence_counterexample :
    let fin := runSchedule "p" "tA" "tB" [false, true, false, true]
      ([], { seqRead := none, inserted := false },
       { seqRead := none, inserted := false })
    fin.1.map (·.global_sequence) = [1, 1] ∧
    ¬ (fin.1.map (·.global_sequence)).Pairwise (· < ·) := by
  refine ⟨by rfl, ?_⟩
  intro h
  have : (1 : Nat) < 1 := by
    have h2 : List.Pairwise (· < ·) ([1, 1] : List Nat) := by
      have e : (runSchedule "p" "tA" "tB" [false, true, false, true]
          ([], { seqRead := none, inserted := false },
           { seqRead := none, inserted := false })).1.map (·.global_sequence)
          = [1, 1] := by rfl
      rw [e] at h
      exact h
    simp at h2
  omega

/-- Claim C8, amended.  The sequence is max-plus-one, but the read and the
    insert are two separate statements: creations that are serialized (the
    first creator finishes both steps before the second starts) do receive
    strictly increasing global sequence numbers, while overlapping creators
    can interleave their reads and obtain duplicates (see the
    counterexample).  This theorem proves the serialized half from any
    starting ledger. -/
theorem C8_sequential_monotone_amended (ledger : Ledger) (pid tidA tidB : String) :
    ∃ ra rb, (runSchedule pid tidA tidB [false, false, true, true]
      (ledger, { seqRead := none, inserted := false },
       { seqRead := none, inserted := false })).1 = (ledger ++ [ra]) ++ [rb] ∧
      ra.global_sequence < rb.global_sequence := by
  refine ⟨seqRow ledger (get_next_sequence ledger) pid tidA,
    seqRow (ledger ++ [seqRow ledger (get_next_sequence ledger) pid tidA])
      (get_next_sequence
        (ledger ++ [seqRow ledger (get_next_sequence ledger) pid tidA]))
      pid tidB, rfl, ?_⟩
  show get_next_sequence ledger <
    get_next_sequence (ledger ++ [seqRow ledger (get_next_sequence ledger) pid tidA])
  simp only [get_next_sequence, List.map_append, List.foldl_append]
  simp only [seqRow, List.map_cons, List.map_nil, List.foldl_cons, List.foldl_nil]
  have hle : (ledger.map (·.global_sequence)).foldl max 0 + 1 ≤
      max ((ledger.map (·.global_sequence)).foldl max 0)
        ((ledger.map (·.global_sequence)).foldl max 0 + 1) :=
    le_max_right _ _
  omega

/-! Section: Claim C1: checkpoints of one full pipeline run -/

theorem complete_checkpoint_mem {ledger : Ledger} {c : Checkpoint} {cid : Nat}
    (h : c ∈ ledger) (hid : (c.id == cid) = true) (oh : Option String)
    (outs : Option StrMap) (rb : Option RollbackData) :
    ({ c with
        status := "complete"
        outputs_hash :=
          if truthyStr oh then oh
          else if truthyMap outs then some (compute_hash (outs.getD []))
          else c.outputs_hash
        rollback_data := if rb.isSome then rb else c.rollback_data } : Checkpoint)
      ∈ (complete_checkpoint ledger cid oh outs rb).2 := by
  have hm := List.mem_map_of_mem (fun x : Checkpoint =>
    if x.id == cid then
      { x with
        status := "complete"
        outputs_hash :=
          if truthyStr oh then oh
          else if truthyMap outs then some (compute_hash (outs.getD []))
          else x.outputs_hash
        rollback_data := if rb.isSome then rb else x.rollback_data }
    else x) h
  simp only [hid, if_true] at hm
  exact hm

theorem create_checkpoint_self_mem (ledger : Ledger) (pid : String)
    (ph : Option String) (sn : String) (ss : StrMap) (tid : Option String)
    (ih oh : Option String) (prev : Option Nat) (rb : Option RollbackData) :
    (create_checkpoint ledger pid ph sn ss tid ih oh prev rb).1 ∈
      (create_checkpoint ledger pid ph sn ss tid ih oh prev rb).2 := by
  simp [create_checkpoint]

theorem verify_draft_checkpoint (env : VerifierEnv) (ledger : Ledger)
    (draft : Draft) (task : Task) :
    (verify_draft env ledger draft task).2.length = ledger.length + 1 ∧
    ∃ c ∈ (verify_draft env ledger draft task).2, c.task_id = some task.id ∧
      c.phase = some "verification" ∧ c.status = "complete" ∧
      c.outputs_hash.isSome = true := by
  constructor
  · simp [verify_draft, complete_checkpoint, create_checkpoint]
  · simp only [verify_draft]
    refine ⟨_, complete_checkpoint_mem
      (create_checkpoint_self_mem ledger task.project_id (some "verification")
        "verify_draft" [("snapshot", "draft task project_context")]
        (some task.id) none none none none) (by simp) _ _ _,
      rfl, rfl, rfl, ?_⟩
    simp [truthyStr, truthyMap]

/-- Claim C1, counterexample.  A full happy-path run (drafting succeeds at
    confidence 0.95 with no flags, verification approves, compliance clears,
    execution succeeds) sets the task status to complete — but exactly ONE
    checkpoint exists for the task afterwards (the verification checkpoint
    opened by the Verifier), not the four per-phase checkpoints the claim
    states: execute_task itself opens no checkpoints. -/
theorem C1_checkpoint_count_counterexample :
    let t : Task := { id := "t1", project_id := "p", status := "queued"
                      current_phase := some "preparation", retry_count := 0
                      retry_history := [], next_retry_at := none }
    let env : OrchEnv := {
      drafter := { success := true, halted := false, message := ""
                   draft := { confidence_score := mkRat 95 100
                              uncertainty_flags := []
                              estimated_complexity := "trivial"
                              reasoning := "done" } }
      executor := { success := true, error := "" }
      venv := { pathIssues := fun _ => [], compileIssues := fun _ => []
                securityRisks := fun _ => [], breakingRisks := fun _ => [] }
      budget := "pass" }
    let r := execute_task env { tasks := [t], checkpoints := [] } t
    r.1.success = true ∧
    (findTask r.2.tasks "t1").map (·.status) = some "complete" ∧
    (r.2.checkpoints.filter (fun c => c.task_id == some "t1")).length = 1 ∧
    ¬ (r.2.checkpoints.filter (fun c => c.task_id == some "t1")).length = 4 := by
  refine ⟨by rfl, by rfl, by rfl, by decide⟩

/-- Claim C1, amended.  For every run of execute_task in which drafting
    succeeds, the verification decision computed from the draft is approved,
    no compliance policy fails, and execution succeeds: the task status
    becomes complete with current_phase complete, but exactly one checkpoint
    is added over the whole run — the verification checkpoint opened and
    completed (with a non-null outputs hash) inside the Verifier role.  The
    orchestrator opens no per-phase checkpoints, so the count is 1, not 4,
    and no drafting / compliance / execution checkpoints exist. -/
theorem C1_execute_task_amended (env : OrchEnv) (st : OrchSt) (task t0 : Task)
    (ht : findTask st.tasks task.id = some t0)
    (hd : env.drafter.success = true)
    (hv : verifyDecision env.venv env.drafter.draft = "approved")
    (hc : failedPolicies env.budget (draftRiskFlags env.venv env.drafter.draft)
      (draftIssues env.venv env.drafter.draft) = [])
    (he : env.executor.success = true) :
    (execute_task env st task).1.success = true ∧
    (∃ u ∈ (execute_task env st task).2.tasks, u.id = task.id ∧
      u.status = "complete" ∧ u.current_phase = some "complete") ∧
    (execute_task env st task).2.checkpoints.length = st.checkpoints.length + 1 ∧
    (∃ c ∈ (execute_task env st task).2.checkpoints, c.task_id = some task.id ∧
      c.phase = some "verification" ∧ c.status = "complete" ∧
      c.outputs_hash.isSome = true) := by
  have hvd : (verify_draft env.venv st.checkpoints env.drafter.draft task).1.decision
      = "approved" := hv
  have hout : complianceDecision env.budget
      (verify_draft env.venv st.checkpoints env.drafter.draft task).1.risk_flags
      (verify_draft env.venv st.checkpoints env.drafter.draft task).1.issues_found =
      { decision := "cleared", failed_policies := [], requires_human := false } := by
    show complianceDecision env.budget (draftRiskFlags env.venv env.drafter.draft)
        (draftIssues env.venv env.drafter.draft) = _
    simp [complianceDecision, hc]
  have hrev : ∀ ts : Tasks, review_proposal env.budget ts
      (verify_draft env.venv st.checkpoints env.drafter.draft task).1 task =
      ({ decision := "cleared", failed_policies := [], requires_human := false },
       ts) := by
    intro ts
    simp [review_proposal, hout]
  have hstep : execute_task env st task =
      ({ success := true, phase := some "complete", halted := false
         decision := none },
       { tasks := (updateTask (updateTask (updateTask (updateTask (updateTask
           st.tasks
           task.id (fun u => { u with status := "running"
                                      current_phase := some "drafting" })).2
           task.id (fun u => { u with current_phase := some "verification" })).2
           task.id (fun u => { u with current_phase := some "compliance" })).2
           task.id (fun u => { u with current_phase := some "execution" })).2
           task.id (fun u => { u with status := "complete"
                                      current_phase := some "complete" })).2
         checkpoints := (verify_draft env.venv st.checkpoints
           env.drafter.draft task).2 }) := by
    simp only [execute_task]
    rw [if_neg (by simp [hd])]
    rw [if_neg (by simp [hvd])]
    rw [hrev]
    rw [if_neg (by simp)]
    rw [if_neg (by simp [he])]
  refine ⟨by rw [hstep], ?_, ?_, ?_⟩
  · rw [hstep]
    have hm0 : t0 ∈ st.tasks := List.mem_of_find?_eq_some ht
    have hid : (t0.id == task.id) = true :=
      List.find?_some (p := fun u : Task => u.id == task.id) ht
    have hm1 := mem_updateTask task.id
      (fun u => { u with status := "running", current_phase := some "drafting" })
      hm0 hid
    have hm2 := mem_updateTask task.id
      (fun u => { u with current_phase := some "verification" }) hm1 hid
    have hm3 := mem_updateTask task.id
      (fun u => { u with current_phase := some "compliance" }) hm2 hid
    have hm4 := mem_updateTask task.id
      (fun u => { u with current_phase := some "execution" }) hm3 hid
    have hm5 := mem_updateTask task.id
      (fun u => { u with status := "complete", current_phase := some "complete" })
      hm4 hid
    exact ⟨_, hm5, eq_of_beq hid, rfl, rfl⟩
  · rw [hstep]
    exact (verify_draft_checkpoint env.venv st.checkpoints env.drafter.draft task).1
  · rw [hstep]
    exact (verify_draft_checkpoint env.venv st.checkpoints env.drafter.draft task).2

/-- Claim C1, witness for the amended theorem at a concrete happy-path run. -/
theorem C1_execute_task_amended_witness :
    let t : Task := { id := "t9", project_id := "q", status := "queued"
                      current_phase := some "preparation", retry_count := 0
                      retry_history := [], next_retry_at := none }
    let env : OrchEnv := {
      drafter := { success := true, halted := false, message := ""
                   draft := { confidence_score := mkRat 9 10
                              uncertainty_flags := []
                              estimated_complexity := "simple"
                              reasoning := "ok" } }
      executor := { success := true, error := "" }
      venv := { pathIssues := fun _ => [], compileIssues := fun _ => []
                securityRisks := fun _ => [], breakingRisks := fun _ => [] }
      budget := "pass" }
    (execute_task env { tasks := [t], checkpoints := [] } t).1.success = true ∧
    (execute_task env { tasks := [t], checkpoints := [] } t).2.checkpoints.length
      = 1 := by
  intro t env
  have h := C1_execute_task_amended env { tasks := [t], checkpoints := [] } t t
    rfl rfl (by decide) (by decide) rfl
  exact ⟨h.1, h.2.2.1⟩

end AgentOS
